import Mathlib

/-!
Shallow embedding of `src/financial_modeling_prep/financial_modeling_prep.py`:
the `FinancialModelingPrep` HTTP client of the discounted-cash-flow repository.

Modelling conventions:
* A parsed JSON value (the result of `response.json()`) is a `Json` tree;
  Python `None` and JSON `null` are the same Python object, both are `Json.null`.
* The HTTP plus JSON-decoding layer (`requests.get` followed by `.json()`)
  is a `Transport`: a function from the URL string to either a parsed value or
  an exception text.  `_call_api` wraps any such exception into a returned pair.
* A raised Python exception is a `PyErr` value and a method that can raise
  returns `Except PyErr`.  The source raises bare `Exception(message)`;
  each `PyErr` constructor stands for one family of raise sites and records
  the values interpolated into the message (`PyErr.message` renders the exact
  source text, punctuation included).
* `str.upper()` is modelled character-wise over ASCII (`pyUpper`), which is
  exact for ticker symbols.
* In the source, the f-strings interpolate `self._version` and
  `self._financials` without calling them, so Python formats the bound-method
  object itself: the interpolated text is the method object text
  ("<bound method FinancialModelingPrep._version of ...>", address included),
  not a URL piece.  That text depends on the instance address, so it is passed
  to the embedded operations as an explicit string argument
  (`version_text`, `financials_text`).
-/

/-- A parsed JSON value, as `response.json()` produces it.  `null` doubles as
Python `None` (JSON `null` parses to the very same Python object). -/
inductive Json where
  | null : Json
  | bool (b : Bool) : Json
  | num (n : Int) : Json
  | str (s : String) : Json
  | arr (elems : List Json) : Json
  | obj (fields : List (String × Json)) : Json

/-- A raised Python exception of the client.  The source raises plain
`Exception(message)`; each constructor records one raise-site family and the
values interpolated into its message (see `PyErr.message`). -/
inductive PyErr where
  /-- `raise Exception("Failed to fetch <target> for ticker symbol <symbol>...")` -/
  | fetchError (target : String) (symbol : String) : PyErr
  /-- `raise Exception("Not enough data found in the <target> for ticker symbol <symbol>.")` -/
  | insufficientData (target : String) (symbol : String) : PyErr
  /-- `KeyError(<key>)` from subscripting a dict that lacks the key. -/
  | keyError (key : String) : PyErr
  /-- `TypeError` from an operation on a value of the wrong type. -/
  | typeError (msg : String) : PyErr
  /-- `AttributeError` from reading a missing attribute. -/
  | attributeError (attr : String) : PyErr
deriving DecidableEq

/-- The exact exception text of each raise site of the source (the balance
sheet and cash flow fetch messages really lack the final period). -/
def PyErr.message : PyErr → String
  | .fetchError "balance sheet" symbol =>
      "Failed to fetch balance sheet for ticker symbol " ++ symbol
  | .fetchError "cash flow statement" symbol =>
      "Failed to fetch cash flow statement for ticker symbol " ++ symbol
  | .fetchError target symbol =>
      "Failed to fetch " ++ target ++ " for ticker symbol " ++ symbol ++ "."
  | .insufficientData target symbol =>
      "Not enough data found in the " ++ target ++ " for ticker symbol " ++ symbol ++ "."
  | .keyError key => key
  | .typeError msg => msg
  | .attributeError attr => attr

/-- Python `str.upper()`, character-wise over ASCII (exact for ticker
symbols, which are basic-latin text). -/
def pyUpper (s : String) : String :=
  ⟨s.data.map Char.toUpper⟩

/-- Python subscripting `data[key]` with a string key: a key lookup on a
dict, a `KeyError` when the key is absent, a `TypeError` on any non-dict
(including `None`, lists and strings, none of which accept a string key). -/
def subscript (data : Json) (key : String) : Except PyErr Json :=
  match data with
  | .obj fields =>
      match fields.find? (fun kv => kv.1 == key) with
      | some kv => .ok kv.2
      | none => .error (.keyError key)
  | .null => .error (.typeError "NoneType object is not subscriptable")
  | _ => .error (.typeError "value is not subscriptable with a str key")

/-- Python `len(x)`: defined for lists, strings and dicts, a `TypeError`
otherwise. -/
def pyLen (data : Json) : Except PyErr Nat :=
  match data with
  | .arr elems => .ok elems.length
  | .str s => .ok s.length
  | .obj fields => .ok fields.length
  | _ => .error (.typeError "object has no len")

/-- The inner function `_has_more_than_minimum(minimum_years, data)` of
`get_financials`: `len(data["financials"]) >= minimum_years`, with the
subscript and `len` able to raise. -/
def has_more_than_minimum (minimum_years : Int) (data : Json) : Except PyErr Bool := do
  let fin ← subscript data "financials"
  let n ← pyLen fin
  pure (decide (minimum_years ≤ (n : Int)))

/-- The client object: `__init__` stores only the base URL. -/
structure FinancialModelingPrep where
  base_url : String
deriving DecidableEq

/-- `FinancialModelingPrep()`: the constructor sets
`self.base_url = "financialmodelingprep.com"`. -/
def FinancialModelingPrep.init : FinancialModelingPrep :=
  { base_url := "financialmodelingprep.com" }

/-- The body of the `_version` method: `self.base_url + "/api/v3/"`.
Note that the operations never call this method; they interpolate the bound
method object itself into their f-strings. -/
def FinancialModelingPrep.version (self : FinancialModelingPrep) : String :=
  self.base_url ++ "/api/v3/"

/-- The body of the `_financials` method: `self._version + "/financials/"`.
`self._version` is a bound method object, and adding a method object to a
string raises a `TypeError`; the method is in any case never called. -/
def FinancialModelingPrep.financials (_self : FinancialModelingPrep) : Except PyErr String :=
  .error (.typeError "unsupported operand types for +: method and str")

/-- The HTTP transport together with JSON decoding: what
`requests.get(url)` followed by `response.json()` yields for each URL, either
a parsed value or the text of the exception the attempt raised. -/
abbrev Transport := String → Except String Json

/-- `_call_api(url)`: one GET request inside `try`; on success
`(response.json(), None)`, on any exception `(None, e)`.  It never raises:
every outcome is returned as a pair. -/
def call_api (transport : Transport) (url : String) : Json × Option String :=
  match transport url with
  | .ok parsed => (parsed, none)
  | .error e => (Json.null, some e)

/-- `_get_income_statement(symbol)`: GET on the f-string
`{self._financials}income-statement/{symbol.upper()}`, where
`financials_text` is the interpolated text of the uncalled bound method. -/
def get_income_statement (financials_text : String) (transport : Transport)
    (symbol : String) : Json × Option String :=
  call_api transport (financials_text ++ "income-statement/" ++ pyUpper symbol)

/-- `_get_balance_sheet(symbol)`: GET on
`{self._financials}balance-sheet-statement/{symbol.upper()}`. -/
def get_balance_sheet (financials_text : String) (transport : Transport)
    (symbol : String) : Json × Option String :=
  call_api transport (financials_text ++ "balance-sheet-statement/" ++ pyUpper symbol)

/-- `_get_cash_flow_statement(symbol)`: GET on
`{self._financials}cash-flow-statement/{symbol.upper()}`. -/
def get_cash_flow_statement (financials_text : String) (transport : Transport)
    (symbol : String) : Json × Option String :=
  call_api transport (financials_text ++ "cash-flow-statement/" ++ pyUpper symbol)

/-- The three statements `get_financials` walks through, in source order. -/
inductive Statement where
  | income : Statement
  | balance : Statement
  | cashFlow : Statement
deriving DecidableEq

/-- The statement's name as the raise sites interpolate it. -/
def Statement.phrase : Statement → String
  | .income => "income statement"
  | .balance => "balance sheet"
  | .cashFlow => "cash flow statement"

/-- The statement's position in the fetch order of `get_financials`. -/
def Statement.idx : Statement → Nat
  | .income => 0
  | .balance => 1
  | .cashFlow => 2

/-- The key under which `get_financials` stores the statement's bundle. -/
def Statement.key : Statement → String
  | .income => "income_statement"
  | .balance => "balance_sheet"
  | .cashFlow => "cash_flow_statement"

/-- The fetch helper `get_financials` uses for each statement. -/
def fetch_statement (st : Statement) (financials_text : String) (transport : Transport)
    (symbol : String) : Json × Option String :=
  match st with
  | .income => get_income_statement financials_text transport symbol
  | .balance => get_balance_sheet financials_text transport symbol
  | .cashFlow => get_cash_flow_statement financials_text transport symbol

/-- The URL each statement fetch requests (unfolding of `fetch_statement`). -/
def Statement.url (st : Statement) (financials_text symbol : String) : String :=
  match st with
  | .income => financials_text ++ "income-statement/" ++ pyUpper symbol
  | .balance => financials_text ++ "balance-sheet-statement/" ++ pyUpper symbol
  | .cashFlow => financials_text ++ "cash-flow-statement/" ++ pyUpper symbol

/-- The statement-fetch URLs in source order. -/
def statement_urls (financials_text symbol : String) : List String :=
  [Statement.url .income financials_text symbol,
   Statement.url .balance financials_text symbol,
   Statement.url .cashFlow financials_text symbol]

/-- One block of `get_financials`, repeated verbatim per statement in the
source: fetch the statement, raise `Failed to fetch ...` when the pair holds
an error, evaluate `_has_more_than_minimum` (which itself can raise), raise
`Not enough data found ...` when it is false, and otherwise hand the fetched
bundle on. -/
def check_stage (st : Statement) (financials_text : String) (transport : Transport)
    (symbol : String) (minimum_years : Int) : Except PyErr Json :=
  match fetch_statement st financials_text transport symbol with
  | (_, some _) => .error (.fetchError st.phrase symbol)
  | (resp, none) =>
      match has_more_than_minimum minimum_years resp with
      | .error e => .error e
      | .ok false => .error (.insufficientData st.phrase symbol)
      | .ok true => .ok resp

/-- `get_financials(symbol, minimum_years)`, instrumented with the list of
URLs actually requested (in request order): the income statement, balance
sheet and cash flow statement blocks run in that fixed order, each block
raising as in `check_stage`, and on success the dict with the three bundles
is returned in insertion order. -/
def get_financials_run (financials_text : String) (transport : Transport)
    (symbol : String) (minimum_years : Int) : Except PyErr Json × List String :=
  match check_stage .income financials_text transport symbol minimum_years with
  | .error e => (.error e, (statement_urls financials_text symbol).take 1)
  | .ok income_resp =>
      match check_stage .balance financials_text transport symbol minimum_years with
      | .error e => (.error e, (statement_urls financials_text symbol).take 2)
      | .ok balance_resp =>
          match check_stage .cashFlow financials_text transport symbol minimum_years with
          | .error e => (.error e, (statement_urls financials_text symbol).take 3)
          | .ok cash_resp =>
              (.ok (Json.obj [("income_statement", income_resp),
                              ("balance_sheet", balance_resp),
                              ("cash_flow_statement", cash_resp)]),
               (statement_urls financials_text symbol).take 3)

/-- `get_financials(symbol, minimum_years)`: the returned value or raised
exception, without the request trace. -/
def get_financials (financials_text : String) (transport : Transport)
    (symbol : String) (minimum_years : Int) : Except PyErr Json :=
  (get_financials_run financials_text transport symbol minimum_years).1

/-- The attribute call `quote_response.json()` in `get_quotes`:
`quote_response` is already the parsed value `_call_api` produced (a dict,
list, string, number, boolean or `None`), and no such Python value has a
`json` attribute, so the call raises `AttributeError` whatever the value is. -/
def json_attribute_call (_parsed : Json) : Except PyErr Json :=
  .error (.attributeError "json")

/-- `get_quotes(symbol)`: GET on the f-string
`{self._version}quote/{symbol.upper()}` (with `version_text` the interpolated
text of the uncalled bound method `self._version`); raise `Failed to fetch
quote data ...` when `_call_api` reports an error, otherwise return
`quote_response.json()`. -/
def get_quotes (version_text : String) (transport : Transport)
    (symbol : String) : Except PyErr Json :=
  match call_api transport (version_text ++ "quote/" ++ pyUpper symbol) with
  | (_, some _) => .error (.fetchError "quote data" symbol)
  | (quote_response, none) => json_attribute_call quote_response

/-- Modelled from the spec: the URL the spec says `get_quote` requests,
`<base>/api/v3/quote/<SYMBOL>` (the code itself never builds this string:
its f-string interpolates the uncalled bound method `self._version`). -/
def spec_quote_url (self : FinancialModelingPrep) (symbol : String) : String :=
  self.base_url ++ "/api/v3/" ++ "quote/" ++ pyUpper symbol

/-- Modelled from the spec: the URL the spec says a statement operation
requests, `<base>/api/v3/financials/<endpoint>/<SYMBOL>`. -/
def spec_statement_url (self : FinancialModelingPrep) (endpoint symbol : String) : String :=
  self.base_url ++ "/api/v3/" ++ "financials/" ++ endpoint ++ "/" ++ pyUpper symbol

/-- A Python method translated as state passing: `get_quotes` reads no
attribute but `base_url` (through its f-string) and assigns none, so the
object it leaves behind is the object it received. -/
def get_quotes_method (self : FinancialModelingPrep) (version_text : String)
    (transport : Transport) (symbol : String) :
    Except PyErr Json × FinancialModelingPrep :=
  (get_quotes version_text transport symbol, self)

/-- `get_financials` as state passing: the method assigns no attribute of
`self`, so the object it leaves behind is the object it received. -/
def get_financials_method (self : FinancialModelingPrep) (financials_text : String)
    (transport : Transport) (symbol : String) (minimum_years : Int) :
    Except PyErr Json × FinancialModelingPrep :=
  (get_financials financials_text transport symbol minimum_years, self)

/-- The endpoint path of each statement, as the spec names it. -/
def Statement.endpoint : Statement → String
  | .income => "income-statement"
  | .balance => "balance-sheet-statement"
  | .cashFlow => "cash-flow-statement"

/-- Whether an exception belongs to the documented taxonomy of deliberate
raises: a fetch failure or an insufficient-data failure. -/
def PyErr.isNamedRaise : PyErr → Bool
  | .fetchError _ _ => true
  | .insufficientData _ _ => true
  | _ => false

/-- Whether an outcome is a raised insufficient-data exception. -/
def is_insufficient : Except PyErr Json → Bool
  | .error (.insufficientData _ _) => true
  | _ => false

/-- The bundle `data` falls below the minimum-years bar: its `"financials"`
entry exists, has a Python length, and that length is under `minimum_years`. -/
def bundle_below (minimum_years : Int) (data : Json) : Prop :=
  ∃ fin n, subscript data "financials" = .ok fin ∧ pyLen fin = .ok n ∧
    (n : Int) < minimum_years

/-- The bundle `data` meets the minimum-years bar: its `"financials"` entry
exists and its Python length is at least `minimum_years`. -/
def bundle_meets (minimum_years : Int) (data : Json) : Prop :=
  ∃ fin n, subscript data "financials" = .ok fin ∧ pyLen fin = .ok n ∧
    minimum_years ≤ (n : Int)

/-- Erase the symbol echoed inside an exception message, keeping everything
else (used to compare runs that differ only in the casing of the symbol). -/
def PyErr.eraseSymbol : PyErr → PyErr
  | .fetchError target _ => .fetchError target ""
  | .insufficientData target _ => .insufficientData target ""
  | e => e

/-- Erase the echoed symbol of a run's outcome. -/
def eraseResult : Except PyErr Json → Except PyErr Json
  | .error e => .error e.eraseSymbol
  | .ok v => .ok v

/-- A sound under-approximation of outcome equality: `false` only when the
two outcomes certainly differ (one raised and one returned, or the raised
exceptions differ); all pairs of returned values count as `true`. -/
def outcome_eqb : Except PyErr Json → Except PyErr Json → Bool
  | .error e1, .error e2 => e1 == e2
  | .ok _, .ok _ => true
  | _, _ => false

/-- A statement bundle with one period of data. -/
def good_bundle : Json := Json.obj [("financials", Json.arr [Json.null])]

/-- A statement bundle whose `"financials"` list is empty. -/
def empty_bundle : Json := Json.obj [("financials", Json.arr [])]

/-- A structurally valid bundle that lacks the `"financials"` key. -/
def no_financials_bundle : Json := Json.obj [("symbol", Json.str "AAPL")]

/-- A transport on which every request succeeds with `good_bundle`. -/
def transport_good : Transport := fun _ => .ok good_bundle

/-- A transport on which every request raises. -/
def transport_down : Transport := fun _ => .error "connection error"

/-- A transport whose balance sheet bundle (under the interpolated text
`"fin:"`) is empty while every other request yields `good_bundle`. -/
def transport_thin_balance : Transport := fun url =>
  if url = "fin:balance-sheet-statement/AAPL" then .ok empty_bundle else .ok good_bundle

/-- A transport on which every request succeeds but the bundle lacks the
`"financials"` key. -/
def transport_no_financials : Transport := fun _ => .ok no_financials_bundle

/-- A transport on which the income statement request raises (under the
interpolated text `"fin:"`) and everything else succeeds. -/
def transport_income_down : Transport := fun url =>
  if url = "fin:income-statement/AAPL" then .error "connection error" else .ok good_bundle

example : get_financials_run "fin:" transport_good "AAPL" 1 =
    (.ok (Json.obj [("income_statement", good_bundle),
                    ("balance_sheet", good_bundle),
                    ("cash_flow_statement", good_bundle)]),
     statement_urls "fin:" "AAPL") := rfl

example : get_financials "fin:" transport_thin_balance "AAPL" 1 =
    .error (.insufficientData "balance sheet" "AAPL") := rfl

example : (get_financials_run "fin:" transport_thin_balance "AAPL" 1).2 =
    ["fin:income-statement/AAPL", "fin:balance-sheet-statement/AAPL"] := rfl

example : get_financials "fin:" transport_no_financials "AAPL" 3 =
    .error (.keyError "financials") := rfl

example : get_financials "fin:" transport_income_down "aapl" 1 =
    .error (.fetchError "income statement" "aapl") := rfl

example : get_quotes "ver:" transport_good "aapl" =
    .error (.attributeError "json") := rfl

example : get_quotes "ver:" transport_down "aapl" =
    .error (.fetchError "quote data" "aapl") := rfl

example : pyUpper "aapl" = "AAPL" := rfl

/-! ## Helper lemmas -/

theorem char_toUpper_idem (c : Char) : c.toUpper.toUpper = c.toUpper := by
  unfold Char.toUpper
  by_cases h : c.toNat ≥ 97 ∧ c.toNat ≤ 122
  · rw [if_pos h]
    obtain ⟨h1, h2⟩ := h
    set n := c.toNat with hn
    interval_cases n <;> decide
  · rw [if_neg h, if_neg h]

theorem map_toUpper_idem (l : List Char) :
    (l.map Char.toUpper).map Char.toUpper = l.map Char.toUpper := by
  induction l with
  | nil => rfl
  | cons c cs ih => simp only [List.map_cons, ih, char_toUpper_idem]

theorem pyUpper_idem (s : String) : pyUpper (pyUpper s) = pyUpper s :=
  congrArg String.mk (map_toUpper_idem s.data)

theorem except_bind_ok {α β ε : Type} (a : α) (f : α → Except ε β) :
    (Except.ok a >>= f) = f a := rfl

theorem except_bind_error {α β ε : Type} (e : ε) (f : α → Except ε β) :
    ((Except.error e : Except ε α) >>= f) = Except.error e := rfl

theorem subscript_error_shape (d : Json) (k : String) (e : PyErr)
    (h : subscript d k = .error e) :
    (∃ key, e = .keyError key) ∨ (∃ msg, e = .typeError msg) := by
  unfold subscript at h
  split at h
  · split at h
    · cases h
    · cases h; exact Or.inl ⟨_, rfl⟩
  · cases h; exact Or.inr ⟨_, rfl⟩
  · cases h; exact Or.inr ⟨_, rfl⟩

theorem pyLen_error_shape (d : Json) (e : PyErr) (h : pyLen d = .error e) :
    ∃ msg, e = .typeError msg := by
  unfold pyLen at h
  split at h
  · cases h
  · cases h
  · cases h
  · cases h; exact ⟨_, rfl⟩

theorem has_more_error_unnamed (m : Int) (data : Json) (e : PyErr)
    (h : has_more_than_minimum m data = .error e) : e.isNamedRaise = false := by
  unfold has_more_than_minimum at h
  cases hs : subscript data "financials" with
  | error e0 =>
      rw [hs, except_bind_error] at h
      cases h
      rcases subscript_error_shape data "financials" e hs with ⟨key, hk⟩ | ⟨msg, hm⟩
      · rw [hk]; rfl
      · rw [hm]; rfl
  | ok fin =>
      rw [hs, except_bind_ok] at h
      cases hl : pyLen fin with
      | error e1 =>
          rw [hl, except_bind_error] at h
          cases h
          rcases pyLen_error_shape fin e hl with ⟨msg, hm⟩
          rw [hm]; rfl
      | ok n => rw [hl, except_bind_ok] at h; cases h

theorem has_more_ok_iff (m : Int) (data : Json) (b : Bool) :
    has_more_than_minimum m data = .ok b ↔
      ∃ fin n, subscript data "financials" = .ok fin ∧ pyLen fin = .ok n ∧
        decide (m ≤ (n : Int)) = b := by
  constructor
  · intro h
    unfold has_more_than_minimum at h
    cases hs : subscript data "financials" with
    | error e0 => rw [hs, except_bind_error] at h; cases h
    | ok fin =>
        rw [hs, except_bind_ok] at h
        cases hl : pyLen fin with
        | error e1 => rw [hl, except_bind_error] at h; cases h
        | ok n =>
            rw [hl, except_bind_ok] at h
            cases h
            exact ⟨fin, n, rfl, hl, rfl⟩
  · rintro ⟨fin, n, hs, hl, hb⟩
    unfold has_more_than_minimum
    rw [hs, except_bind_ok, hl, except_bind_ok, ← hb]
    rfl

theorem has_more_true_iff_meets (m : Int) (data : Json) :
    has_more_than_minimum m data = .ok true ↔ bundle_meets m data := by
  rw [has_more_ok_iff]
  unfold bundle_meets
  constructor
  · rintro ⟨fin, n, hs, hl, hb⟩
    exact ⟨fin, n, hs, hl, of_decide_eq_true hb⟩
  · rintro ⟨fin, n, hs, hl, hb⟩
    exact ⟨fin, n, hs, hl, decide_eq_true hb⟩

theorem has_more_false_iff_below (m : Int) (data : Json) :
    has_more_than_minimum m data = .ok false ↔ bundle_below m data := by
  rw [has_more_ok_iff]
  unfold bundle_below
  constructor
  · rintro ⟨fin, n, hs, hl, hb⟩
    refine ⟨fin, n, hs, hl, ?_⟩
    have := of_decide_eq_false hb
    omega
  · rintro ⟨fin, n, hs, hl, hb⟩
    refine ⟨fin, n, hs, hl, ?_⟩
    simp only [decide_eq_false_iff_not]
    omega

theorem check_stage_fetch_err (st : Statement) (ft : String) (t : Transport)
    (s : String) (m : Int) (resp : Json) (e : String)
    (hfe : fetch_statement st ft t s = (resp, some e)) :
    check_stage st ft t s m = .error (.fetchError st.phrase s) := by
  unfold check_stage; rw [hfe]

theorem check_stage_check_err (st : Statement) (ft : String) (t : Transport)
    (s : String) (m : Int) (resp : Json) (e : PyErr)
    (hfe : fetch_statement st ft t s = (resp, none))
    (hm : has_more_than_minimum m resp = .error e) :
    check_stage st ft t s m = .error e := by
  unfold check_stage; rw [hfe]; simp only []; rw [hm]

theorem check_stage_insuff (st : Statement) (ft : String) (t : Transport)
    (s : String) (m : Int) (resp : Json)
    (hfe : fetch_statement st ft t s = (resp, none))
    (hm : has_more_than_minimum m resp = .ok false) :
    check_stage st ft t s m = .error (.insufficientData st.phrase s) := by
  unfold check_stage; rw [hfe]; simp only []; rw [hm]

theorem check_stage_ok (st : Statement) (ft : String) (t : Transport)
    (s : String) (m : Int) (resp : Json)
    (hfe : fetch_statement st ft t s = (resp, none))
    (hm : has_more_than_minimum m resp = .ok true) :
    check_stage st ft t s m = .ok resp := by
  unfold check_stage; rw [hfe]; simp only []; rw [hm]

theorem phrase_injective (a b : Statement) (h : a.phrase = b.phrase) : a = b := by
  cases a <;> cases b <;> revert h <;> decide

theorem check_stage_error_cases (st : Statement) (ft : String) (t : Transport)
    (s : String) (m : Int) (e : PyErr) (h : check_stage st ft t s m = .error e) :
    e = .fetchError st.phrase s ∨ e = .insufficientData st.phrase s ∨
      e.isNamedRaise = false := by
  rcases hfe : fetch_statement st ft t s with ⟨resp, err⟩
  cases err with
  | some e0 =>
      rw [check_stage_fetch_err st ft t s m resp e0 hfe] at h
      cases h; exact Or.inl rfl
  | none =>
      cases hm : has_more_than_minimum m resp with
      | error e1 =>
          rw [check_stage_check_err st ft t s m resp e1 hfe hm] at h
          cases h; exact Or.inr (Or.inr (has_more_error_unnamed m resp _ hm))
      | ok b =>
          cases b with
          | false =>
              rw [check_stage_insuff st ft t s m resp hfe hm] at h
              cases h; exact Or.inr (Or.inl rfl)
          | true => rw [check_stage_ok st ft t s m resp hfe hm] at h; cases h

theorem stage_error_names_stage (stg st : Statement) (ft : String) (t : Transport)
    (s : String) (m : Int) (e : PyErr)
    (hstage : check_stage stg ft t s m = .error e)
    (hnamed : e = .fetchError st.phrase s ∨ e = .insufficientData st.phrase s) :
    st = stg := by
  rcases check_stage_error_cases stg ft t s m e hstage with h1 | h1 | h1
  · rcases hnamed with h2 | h2
    · rw [h2] at h1
      injection h1 with hp _
      exact phrase_injective st stg hp
    · rw [h2] at h1; cases h1
  · rcases hnamed with h2 | h2
    · rw [h2] at h1; cases h1
    · rw [h2] at h1
      injection h1 with hp _
      exact phrase_injective st stg hp
  · rcases hnamed with h2 | h2 <;> rw [h2] at h1 <;> simp [PyErr.isNamedRaise] at h1

/-- Claim C2: `get_financials` requests the statement URLs in the fixed order
income statement, balance sheet, cash flow statement: the request trace is a
non-empty prefix of that URL list, a successful run requests all three, and a
run that raises the fetch-failure or insufficient-data exception of statement
number `i` requested exactly the first `i + 1` URLs, so later statements are
never fetched once one fails. -/
theorem fetch_order_and_short_circuit (ft : String) (t : Transport) (s : String) (m : Int) :
    ∃ k, 1 ≤ k ∧ k ≤ 3 ∧
      (get_financials_run ft t s m).2 = (statement_urls ft s).take k ∧
      (∀ v, (get_financials_run ft t s m).1 = .ok v → k = 3) ∧
      (∀ st : Statement,
        ((get_financials_run ft t s m).1 = .error (.fetchError st.phrase s) ∨
         (get_financials_run ft t s m).1 = .error (.insufficientData st.phrase s)) →
        k = st.idx + 1) := by
  rcases h1 : check_stage .income ft t s m with e1 | v1
  · refine ⟨1, by omega, by omega, ?_, ?_, ?_⟩
    · unfold get_financials_run
      rw [h1]
    · intro v hv
      unfold get_financials_run at hv
      rw [h1] at hv
      cases hv
    · intro st hst
      unfold get_financials_run at hst
      rw [h1] at hst
      have hst2 : (Except.error e1 : Except PyErr Json) = .error (.fetchError st.phrase s) ∨
          (Except.error e1 : Except PyErr Json) = .error (.insufficientData st.phrase s) := hst
      simp only [Except.error.injEq] at hst2
      rw [stage_error_names_stage .income st ft t s m e1 h1 hst2]
      rfl
  · rcases h2 : check_stage .balance ft t s m with e2 | v2
    · refine ⟨2, by omega, by omega, ?_, ?_, ?_⟩
      · unfold get_financials_run
        rw [h1, h2]
      · intro v hv
        unfold get_financials_run at hv
        rw [h1, h2] at hv
        cases hv
      · intro st hst
        unfold get_financials_run at hst
        rw [h1, h2] at hst
        have hst2 : (Except.error e2 : Except PyErr Json) = .error (.fetchError st.phrase s) ∨
            (Except.error e2 : Except PyErr Json) = .error (.insufficientData st.phrase s) := hst
        simp only [Except.error.injEq] at hst2
        rw [stage_error_names_stage .balance st ft t s m e2 h2 hst2]
        rfl
    · rcases h3 : check_stage .cashFlow ft t s m with e3 | v3
      · refine ⟨3, by omega, by omega, ?_, ?_, ?_⟩
        · unfold get_financials_run
          rw [h1, h2, h3]
        · intro v hv
          rfl
        · intro st hst
          unfold get_financials_run at hst
          rw [h1, h2, h3] at hst
          have hst2 : (Except.error e3 : Except PyErr Json) = .error (.fetchError st.phrase s) ∨
              (Except.error e3 : Except PyErr Json) = .error (.insufficientData st.phrase s) := hst
          simp only [Except.error.injEq] at hst2
          rw [stage_error_names_stage .cashFlow st ft t s m e3 h3 hst2]
          rfl
      · refine ⟨3, by omega, by omega, ?_, ?_, ?_⟩
        · unfold get_financials_run
          rw [h1, h2, h3]
        · intro v hv
          rfl
        · intro st hst
          unfold get_financials_run at hst
          rw [h1, h2, h3] at hst
          have hst2 : (Except.ok (Json.obj [("income_statement", v1), ("balance_sheet", v2),
              ("cash_flow_statement", v3)]) : Except PyErr Json) =
                .error (.fetchError st.phrase s) ∨
              (Except.ok (Json.obj [("income_statement", v1), ("balance_sheet", v2),
              ("cash_flow_statement", v3)]) : Except PyErr Json) =
                .error (.insufficientData st.phrase s) := hst
          rcases hst2 with h | h <;> cases h

theorem check_stage_ok_inv (st : Statement) (ft : String) (t : Transport)
    (s : String) (m : Int) (v : Json) (h : check_stage st ft t s m = .ok v) :
    (fetch_statement st ft t s).2 = none ∧ v = (fetch_statement st ft t s).1 ∧
    has_more_than_minimum m v = .ok true := by
  rcases hfe : fetch_statement st ft t s with ⟨resp, err⟩
  cases err with
  | some e0 => rw [check_stage_fetch_err st ft t s m resp e0 hfe] at h; cases h
  | none =>
      cases hm : has_more_than_minimum m resp with
      | error e1 => rw [check_stage_check_err st ft t s m resp e1 hfe hm] at h; cases h
      | ok b =>
          cases b with
          | false => rw [check_stage_insuff st ft t s m resp hfe hm] at h; cases h
          | true =>
              rw [check_stage_ok st ft t s m resp hfe hm] at h
              cases h
              exact ⟨rfl, rfl, hm⟩

/-- Claim C1: a successful `get_financials` returns the dict holding exactly the
three statement keys, bound to the fetched bundles, and only when every one
of the three fetched bundles has a `"financials"` entry whose length is at
least `minimum_years`; no partial dict is ever returned (a failed statement
raises instead). -/
theorem financials_complete_only_if_all_meet (ft : String) (t : Transport) (s : String)
    (m : Int) (v : Json) (h : get_financials ft t s m = .ok v) :
    v = Json.obj [("income_statement", (fetch_statement .income ft t s).1),
                  ("balance_sheet", (fetch_statement .balance ft t s).1),
                  ("cash_flow_statement", (fetch_statement .cashFlow ft t s).1)] ∧
    ∀ st : Statement, (fetch_statement st ft t s).2 = none ∧
      bundle_meets m (fetch_statement st ft t s).1 := by
  unfold get_financials get_financials_run at h
  rcases h1 : check_stage .income ft t s m with e1 | v1
  · rw [h1] at h; cases h
  · rw [h1] at h
    rcases h2 : check_stage .balance ft t s m with e2 | v2
    · rw [h2] at h; cases h
    · rw [h2] at h
      rcases h3 : check_stage .cashFlow ft t s m with e3 | v3
      · rw [h3] at h; cases h
      · rw [h3] at h
        have h4 : (Except.ok (Json.obj [("income_statement", v1), ("balance_sheet", v2),
            ("cash_flow_statement", v3)]) : Except PyErr Json) = .ok v := h
        cases h4
        obtain ⟨hf1, hv1, hm1⟩ := check_stage_ok_inv .income ft t s m v1 h1
        obtain ⟨hf2, hv2, hm2⟩ := check_stage_ok_inv .balance ft t s m v2 h2
        obtain ⟨hf3, hv3, hm3⟩ := check_stage_ok_inv .cashFlow ft t s m v3 h3
        constructor
        · rw [← hv1, ← hv2, ← hv3]
        · intro st
          cases st with
          | income => exact ⟨hf1, (has_more_true_iff_meets m _).mp (hv1 ▸ hm1)⟩
          | balance => exact ⟨hf2, (has_more_true_iff_meets m _).mp (hv2 ▸ hm2)⟩
          | cashFlow => exact ⟨hf3, (has_more_true_iff_meets m _).mp (hv3 ▸ hm3)⟩

/-- Witness for C1 at a concrete transport on which every statement succeeds
with one period of data. -/
theorem financials_complete_only_if_all_meet_witness :
    (Json.obj [("income_statement", good_bundle), ("balance_sheet", good_bundle),
               ("cash_flow_statement", good_bundle)]) =
      Json.obj [("income_statement", (fetch_statement .income "fin:" transport_good "AAPL").1),
                ("balance_sheet", (fetch_statement .balance "fin:" transport_good "AAPL").1),
                ("cash_flow_statement", (fetch_statement .cashFlow "fin:" transport_good "AAPL").1)] ∧
    ∀ st : Statement, (fetch_statement st "fin:" transport_good "AAPL").2 = none ∧
      bundle_meets 1 (fetch_statement st "fin:" transport_good "AAPL").1 :=
  financials_complete_only_if_all_meet "fin:" transport_good "AAPL" 1
    (Json.obj [("income_statement", good_bundle), ("balance_sheet", good_bundle),
               ("cash_flow_statement", good_bundle)]) rfl

theorem except_error_inj {e1 e2 : PyErr} (h : (Except.error e1 : Except PyErr Json) = .error e2) :
    e1 = e2 := by
  injection h

theorem except_ok_ne_error {v : Json} {e : PyErr} (h : (Except.ok v : Except PyErr Json) = .error e) :
    False := by
  cases h

theorem check_stage_insuff_inv (st : Statement) (ft : String) (t : Transport)
    (s : String) (m : Int)
    (h : check_stage st ft t s m = .error (.insufficientData st.phrase s)) :
    (fetch_statement st ft t s).2 = none ∧ bundle_below m (fetch_statement st ft t s).1 := by
  rcases hfe : fetch_statement st ft t s with ⟨resp, err⟩
  cases err with
  | some e0 =>
      rw [check_stage_fetch_err st ft t s m resp e0 hfe] at h
      cases except_error_inj h
  | none =>
      cases hm : has_more_than_minimum m resp with
      | error e1 =>
          rw [check_stage_check_err st ft t s m resp e1 hfe hm] at h
          have h2 := has_more_error_unnamed m resp e1 hm
          rw [except_error_inj h] at h2
          simp [PyErr.isNamedRaise] at h2
      | ok b =>
          cases b with
          | false => exact ⟨rfl, (has_more_false_iff_below m resp).mp hm⟩
          | true =>
              rw [check_stage_ok st ft t s m resp hfe hm] at h
              exact (except_ok_ne_error h).elim

theorem check_stage_insuff_of_below (st : Statement) (ft : String) (t : Transport)
    (s : String) (m : Int)
    (hf : (fetch_statement st ft t s).2 = none)
    (hb : bundle_below m (fetch_statement st ft t s).1) :
    check_stage st ft t s m = .error (.insufficientData st.phrase s) := by
  rcases hfe : fetch_statement st ft t s with ⟨resp, err⟩
  rw [hfe] at hf hb
  cases err with
  | some e => exact absurd hf (by simp)
  | none =>
      exact check_stage_insuff st ft t s m resp hfe ((has_more_false_iff_below m resp).mpr hb)

theorem check_stage_ok_of_meets (st : Statement) (ft : String) (t : Transport)
    (s : String) (m : Int)
    (hf : (fetch_statement st ft t s).2 = none)
    (hm : bundle_meets m (fetch_statement st ft t s).1) :
    check_stage st ft t s m = .ok ((fetch_statement st ft t s).1) := by
  rcases hfe : fetch_statement st ft t s with ⟨resp, err⟩
  rw [hfe] at hf hm
  cases err with
  | some e => exact absurd hf (by simp)
  | none =>
      exact check_stage_ok st ft t s m resp hfe ((has_more_true_iff_meets m resp).mpr hm)

/-- Claim C5: `get_financials` raises the insufficient-data exception naming a
statement and the symbol exactly when that statement is the first one fetched
whose `"financials"` length is below `minimum_years`: every earlier statement
was fetched successfully and met the bar, the named statement was fetched
successfully, and its bundle fell below the bar; moreover every
insufficient-data raise names one of the three statements and the symbol.
A fetched bundle that meets the bar never triggers this exception. -/
theorem insufficient_data_characterization (ft : String) (t : Transport) (s : String) (m : Int) :
    (get_financials ft t s m = .error (.insufficientData "income statement" s) ↔
      (fetch_statement .income ft t s).2 = none ∧
        bundle_below m (fetch_statement .income ft t s).1) ∧
    (get_financials ft t s m = .error (.insufficientData "balance sheet" s) ↔
      (fetch_statement .income ft t s).2 = none ∧
        bundle_meets m (fetch_statement .income ft t s).1 ∧
        (fetch_statement .balance ft t s).2 = none ∧
        bundle_below m (fetch_statement .balance ft t s).1) ∧
    (get_financials ft t s m = .error (.insufficientData "cash flow statement" s) ↔
      (fetch_statement .income ft t s).2 = none ∧
        bundle_meets m (fetch_statement .income ft t s).1 ∧
        (fetch_statement .balance ft t s).2 = none ∧
        bundle_meets m (fetch_statement .balance ft t s).1 ∧
        (fetch_statement .cashFlow ft t s).2 = none ∧
        bundle_below m (fetch_statement .cashFlow ft t s).1) ∧
    (∀ target sym, get_financials ft t s m = .error (.insufficientData target sym) →
      sym = s ∧ ∃ st : Statement, target = st.phrase) := by
  refine ⟨⟨?_, ?_⟩, ⟨?_, ?_⟩, ⟨?_, ?_⟩, ?_⟩
  · -- income, forward
    intro h
    unfold get_financials get_financials_run at h
    rcases h1 : check_stage .income ft t s m with e1 | v1
    · rw [h1] at h
      rw [except_error_inj h] at h1
      exact check_stage_insuff_inv .income ft t s m h1
    · rw [h1] at h
      rcases h2 : check_stage .balance ft t s m with e2 | v2
      · rw [h2] at h
        rw [except_error_inj h] at h2
        cases stage_error_names_stage .balance .income ft t s m _ h2 (Or.inr rfl)
      · rw [h2] at h
        rcases h3 : check_stage .cashFlow ft t s m with e3 | v3
        · rw [h3] at h
          rw [except_error_inj h] at h3
          cases stage_error_names_stage .cashFlow .income ft t s m _ h3 (Or.inr rfl)
        · rw [h3] at h
          exact (except_ok_ne_error h).elim
  · -- income, backward
    rintro ⟨hf, hb⟩
    unfold get_financials get_financials_run
    rw [check_stage_insuff_of_below .income ft t s m hf hb]
    rfl
  · -- balance, forward
    intro h
    unfold get_financials get_financials_run at h
    rcases h1 : check_stage .income ft t s m with e1 | v1
    · rw [h1] at h
      rw [except_error_inj h] at h1
      cases stage_error_names_stage .income .balance ft t s m _ h1 (Or.inr rfl)
    · rw [h1] at h
      rcases h2 : check_stage .balance ft t s m with e2 | v2
      · rw [h2] at h
        rw [except_error_inj h] at h2
        obtain ⟨hf1, hv1, hm1⟩ := check_stage_ok_inv .income ft t s m v1 h1
        obtain ⟨hfb, hbb⟩ := check_stage_insuff_inv .balance ft t s m h2
        exact ⟨hf1, (has_more_true_iff_meets m _).mp (hv1 ▸ hm1), hfb, hbb⟩
      · rw [h2] at h
        rcases h3 : check_stage .cashFlow ft t s m with e3 | v3
        · rw [h3] at h
          rw [except_error_inj h] at h3
          cases stage_error_names_stage .cashFlow .balance ft t s m _ h3 (Or.inr rfl)
        · rw [h3] at h
          exact (except_ok_ne_error h).elim
  · -- balance, backward
    rintro ⟨hf1, hm1, hfb, hbb⟩
    unfold get_financials get_financials_run
    rw [check_stage_ok_of_meets .income ft t s m hf1 hm1,
        check_stage_insuff_of_below .balance ft t s m hfb hbb]
    rfl
  · -- cash flow, forward
    intro h
    unfold get_financials get_financials_run at h
    rcases h1 : check_stage .income ft t s m with e1 | v1
    · rw [h1] at h
      rw [except_error_inj h] at h1
      cases stage_error_names_stage .income .cashFlow ft t s m _ h1 (Or.inr rfl)
    · rw [h1] at h
      rcases h2 : check_stage .balance ft t s m with e2 | v2
      · rw [h2] at h
        rw [except_error_inj h] at h2
        cases stage_error_names_stage .balance .cashFlow ft t s m _ h2 (Or.inr rfl)
      · rw [h2] at h
        rcases h3 : check_stage .cashFlow ft t s m with e3 | v3
        · rw [h3] at h
          rw [except_error_inj h] at h3
          obtain ⟨hf1, hv1, hm1⟩ := check_stage_ok_inv .income ft t s m v1 h1
          obtain ⟨hf2, hv2, hm2⟩ := check_stage_ok_inv .balance ft t s m v2 h2
          obtain ⟨hfc, hbc⟩ := check_stage_insuff_inv .cashFlow ft t s m h3
          exact ⟨hf1, (has_more_true_iff_meets m _).mp (hv1 ▸ hm1),
                 hf2, (has_more_true_iff_meets m _).mp (hv2 ▸ hm2), hfc, hbc⟩
        · rw [h3] at h
          exact (except_ok_ne_error h).elim
  · -- cash flow, backward
    rintro ⟨hf1, hm1, hf2, hm2, hfc, hbc⟩
    unfold get_financials get_financials_run
    rw [check_stage_ok_of_meets .income ft t s m hf1 hm1,
        check_stage_ok_of_meets .balance ft t s m hf2 hm2,
        check_stage_insuff_of_below .cashFlow ft t s m hfc hbc]
    rfl
  · -- any insufficient-data raise names a statement and the symbol
    intro target sym h
    unfold get_financials get_financials_run at h
    rcases h1 : check_stage .income ft t s m with e1 | v1
    · rw [h1] at h
      rw [except_error_inj h] at h1
      rcases check_stage_error_cases .income ft t s m _ h1 with hc | hc | hc
      · cases hc
      · injection hc with h7 h8
        exact ⟨h8, .income, h7⟩
      · simp [PyErr.isNamedRaise] at hc
    · rw [h1] at h
      rcases h2 : check_stage .balance ft t s m with e2 | v2
      · rw [h2] at h
        rw [except_error_inj h] at h2
        rcases check_stage_error_cases .balance ft t s m _ h2 with hc | hc | hc
        · cases hc
        · injection hc with h7 h8
          exact ⟨h8, .balance, h7⟩
        · simp [PyErr.isNamedRaise] at hc
      · rw [h2] at h
        rcases h3 : check_stage .cashFlow ft t s m with e3 | v3
        · rw [h3] at h
          rw [except_error_inj h] at h3
          rcases check_stage_error_cases .cashFlow ft t s m _ h3 with hc | hc | hc
          · cases hc
          · injection hc with h7 h8
            exact ⟨h8, .cashFlow, h7⟩
          · simp [PyErr.isNamedRaise] at hc
        · rw [h3] at h
          exact (except_ok_ne_error h).elim

theorem has_more_zero_not_false (d : Json) (h : has_more_than_minimum 0 d = .ok false) :
    False := by
  obtain ⟨fin, n, _, _, hn⟩ := (has_more_false_iff_below 0 d).mp h
  omega

theorem check_stage_zero_not_insuff (st : Statement) (ft : String) (t : Transport)
    (s : String) (e : PyErr) (h : check_stage st ft t s 0 = .error e) :
    ∀ target sym, e ≠ .insufficientData target sym := by
  intro target sym heq
  rcases hfe : fetch_statement st ft t s with ⟨resp, err⟩
  cases err with
  | some e0 =>
      rw [check_stage_fetch_err st ft t s 0 resp e0 hfe] at h
      rw [heq] at h
      cases except_error_inj h
  | none =>
      cases hm : has_more_than_minimum 0 resp with
      | error e1 =>
          rw [check_stage_check_err st ft t s 0 resp e1 hfe hm] at h
          have h2 := has_more_error_unnamed 0 resp e1 hm
          rw [except_error_inj h, heq] at h2
          simp [PyErr.isNamedRaise] at h2
      | ok b =>
          cases b with
          | false => exact has_more_zero_not_false resp hm
          | true =>
              rw [check_stage_ok st ft t s 0 resp hfe hm] at h
              exact except_ok_ne_error h

theorem is_insufficient_error_false (e : PyErr)
    (h : ∀ target sym, e ≠ .insufficientData target sym) :
    is_insufficient (.error e) = false := by
  cases e with
  | insufficientData a b => exact absurd rfl (h a b)
  | fetchError a b => rfl
  | keyError k => rfl
  | typeError msg => rfl
  | attributeError a => rfl

/-- Claim C8: with `minimum_years = 0`, when all three fetches succeed with
bundles whose `"financials"` entry has a Python length, `get_financials`
never raises the insufficient-data exception: every length is at least zero,
the empty list included.  (The proof shows the conclusion holds for every
transport, so the precondition is not even needed.) -/
theorem zero_minimum_never_insufficient (ft : String) (t : Transport) (s : String)
    (_h : ∀ st : Statement, (fetch_statement st ft t s).2 = none ∧
      ∃ fin n, subscript (fetch_statement st ft t s).1 "financials" = .ok fin ∧
        pyLen fin = .ok n) :
    is_insufficient (get_financials ft t s 0) = false := by
  unfold get_financials get_financials_run
  rcases h1 : check_stage .income ft t s 0 with e1 | v1
  · exact is_insufficient_error_false e1 (check_stage_zero_not_insuff .income ft t s e1 h1)
  · rcases h2 : check_stage .balance ft t s 0 with e2 | v2
    · exact is_insufficient_error_false e2 (check_stage_zero_not_insuff .balance ft t s e2 h2)
    · rcases h3 : check_stage .cashFlow ft t s 0 with e3 | v3
      · exact is_insufficient_error_false e3 (check_stage_zero_not_insuff .cashFlow ft t s e3 h3)
      · rfl

/-- Witness for C8 at a concrete transport on which every statement succeeds. -/
theorem zero_minimum_never_insufficient_witness :
    is_insufficient (get_financials "fin:" transport_good "AAPL" 0) = false :=
  zero_minimum_never_insufficient "fin:" transport_good "AAPL"
    (fun st => by cases st <;> exact ⟨rfl, Json.arr [Json.null], 1, rfl, rfl⟩)

/-- Claim C6: `_call_api` never raises: on a transport success it returns the
parsed value with no error, on any transport or decode failure it returns the
error value with no parsed value (exactly one side is ever set), and the
public operation `get_quotes` surfaces a returned error as the raised
fetch-failure exception naming the symbol. -/
theorem call_api_never_raises (t : Transport) (url : String) :
    (∀ j, t url = .ok j → call_api t url = (j, none)) ∧
    (∀ e, t url = .error e → call_api t url = (Json.null, some e)) ∧
    ((call_api t url).2 = none ↔ ∃ j, t url = .ok j) ∧
    (∀ version_text symbol e, t (version_text ++ "quote/" ++ pyUpper symbol) = .error e →
      get_quotes version_text t symbol = .error (.fetchError "quote data" symbol)) := by
  refine ⟨?_, ?_, ?_, ?_⟩
  · intro j hj
    unfold call_api
    rw [hj]
  · intro e he
    unfold call_api
    rw [he]
  · unfold call_api
    cases ht : t url with
    | ok j => exact ⟨fun _ => ⟨j, rfl⟩, fun _ => rfl⟩
    | error e =>
        constructor
        · intro hc
          cases hc
        · rintro ⟨j, hj⟩
          cases hj
  · intro vt sym e he
    unfold get_quotes call_api
    rw [he]

/-- Claim C7: the operations mutate no client state (the object after a call
is the object before it) and are deterministic functions of their arguments
and the transport, so calling `get_quotes` or `get_financials` twice with
identical inputs against a deterministic transport yields identical results. -/
theorem client_stateless_idempotent (self : FinancialModelingPrep)
    (version_text financials_text : String) (t : Transport) (symbol : String) (m : Int) :
    (get_quotes_method self version_text t symbol).2 = self ∧
    (get_quotes_method ((get_quotes_method self version_text t symbol).2)
        version_text t symbol).1 =
      (get_quotes_method self version_text t symbol).1 ∧
    (get_financials_method self financials_text t symbol m).2 = self ∧
    (get_financials_method ((get_financials_method self financials_text t symbol m).2)
        financials_text t symbol m).1 =
      (get_financials_method self financials_text t symbol m).1 :=
  ⟨rfl, rfl, rfl, rfl⟩

/-- Claim C9: the minimum-years check subscripts the fetched bundle without a
guard, so a successfully fetched, structurally valid JSON response lacking
the `"financials"` key makes `get_financials` raise a `KeyError`, which is
neither the fetch-failure nor the insufficient-data exception of the
documented taxonomy. -/
theorem unguarded_financials_lookup_escapes_taxonomy :
    get_financials "fin:" transport_no_financials "AAPL" 3 = .error (.keyError "financials") ∧
    (PyErr.keyError "financials").isNamedRaise = false ∧
    ∀ target sym, PyErr.keyError "financials" ≠ .fetchError target sym ∧
      PyErr.keyError "financials" ≠ .insufficientData target sym :=
  ⟨rfl, rfl, fun _ _ => ⟨fun h => (nomatch h), fun h => (nomatch h)⟩⟩

/-- Claim C3 (the code slip, evaluated): on a transport that succeeds with
valid JSON, `get_quotes` does not return the parsed value as claimed; it
calls `.json()` on the already-parsed value and raises `AttributeError`. -/
theorem get_quotes_double_json_bug :
    transport_good ("ver:" ++ "quote/" ++ pyUpper "aapl") = .ok good_bundle ∧
    get_quotes "ver:" transport_good "aapl" = .error (.attributeError "json") :=
  ⟨rfl, rfl⟩

/-- Claim C4 (the code slip, evaluated): because the f-strings interpolate the
uncalled bound methods, every request URL the code builds starts with the
bound-method text and therefore differs from the spec's
`<base>/api/v3/...` URL, for the quote operation and for each of the three
statement operations. -/
theorem request_urls_use_bound_method_text (self : FinancialModelingPrep)
    (version_text financials_text symbol : String)
    (hbase : self.base_url = "financialmodelingprep.com")
    (hv : ∃ r, version_text = "<bound method " ++ r)
    (hf : ∃ r, financials_text = "<bound method " ++ r) :
    (version_text ++ "quote/" ++ pyUpper symbol ≠ spec_quote_url self symbol) ∧
    (∀ st : Statement, Statement.url st financials_text symbol ≠
      spec_statement_url self st.endpoint symbol) := by
  obtain ⟨rv, hv⟩ := hv
  obtain ⟨rf, hf⟩ := hf
  subst hv hf
  constructor
  · intro h
    have h2 := congrArg (fun x : String => x.data.head?) h
    simp only [spec_quote_url, hbase] at h2
    have h3 : (some '<' : Option Char) = some 'f' := h2
    exact absurd h3 (by decide)
  · intro st h
    have h2 := congrArg (fun x : String => x.data.head?) h
    simp only [spec_statement_url, hbase] at h2
    cases st
    · have h3 : (some '<' : Option Char) = some 'f' := h2
      exact absurd h3 (by decide)
    · have h3 : (some '<' : Option Char) = some 'f' := h2
      exact absurd h3 (by decide)
    · have h3 : (some '<' : Option Char) = some 'f' := h2
      exact absurd h3 (by decide)

/-- Witness for C4 at the client object and a concrete bound-method text. -/
theorem request_urls_use_bound_method_text_witness :
    ("<bound method FinancialModelingPrep._version of <FinancialModelingPrep object at 0x100>>" ++
        "quote/" ++ pyUpper "aapl" ≠ spec_quote_url FinancialModelingPrep.init "aapl") ∧
    (∀ st : Statement,
      Statement.url st
        "<bound method FinancialModelingPrep._financials of <FinancialModelingPrep object at 0x100>>"
        "aapl" ≠
      spec_statement_url FinancialModelingPrep.init st.endpoint "aapl") :=
  request_urls_use_bound_method_text FinancialModelingPrep.init _ _ "aapl" rfl
    ⟨"FinancialModelingPrep._version of <FinancialModelingPrep object at 0x100>>", rfl⟩
    ⟨"FinancialModelingPrep._financials of <FinancialModelingPrep object at 0x100>>", rfl⟩

theorem fetch_up (st : Statement) (ft : String) (t : Transport) (s : String) :
    fetch_statement st ft t (pyUpper s) = fetch_statement st ft t s := by
  cases st <;>
    simp only [fetch_statement, get_income_statement, get_balance_sheet,
      get_cash_flow_statement, pyUpper_idem]

theorem statement_urls_up (ft : String) (s : String) :
    statement_urls ft (pyUpper s) = statement_urls ft s := by
  simp only [statement_urls, Statement.url, pyUpper_idem]

theorem check_stage_erase (st : Statement) (ft : String) (t : Transport)
    (s : String) (m : Int) :
    eraseResult (check_stage st ft t (pyUpper s) m) =
      eraseResult (check_stage st ft t s m) := by
  rcases hfe : fetch_statement st ft t s with ⟨resp, err⟩
  have hfu : fetch_statement st ft t (pyUpper s) = (resp, err) := by
    rw [fetch_up]; exact hfe
  cases err with
  | some e =>
      rw [check_stage_fetch_err st ft t s m resp e hfe,
          check_stage_fetch_err st ft t (pyUpper s) m resp e hfu]
      rfl
  | none =>
      cases hm : has_more_than_minimum m resp with
      | error e =>
          rw [check_stage_check_err st ft t s m resp e hfe hm,
              check_stage_check_err st ft t (pyUpper s) m resp e hfu hm]
      | ok b =>
          cases b with
          | false =>
              rw [check_stage_insuff st ft t s m resp hfe hm,
                  check_stage_insuff st ft t (pyUpper s) m resp hfu hm]
              rfl
          | true =>
              rw [check_stage_ok st ft t s m resp hfe hm,
                  check_stage_ok st ft t (pyUpper s) m resp hfu hm]

theorem run_up (ft : String) (t : Transport) (s : String) (m : Int) :
    (get_financials_run ft t (pyUpper s) m).2 = (get_financials_run ft t s m).2 ∧
    eraseResult ((get_financials_run ft t (pyUpper s) m).1) =
      eraseResult ((get_financials_run ft t s m).1) := by
  unfold get_financials_run
  rw [statement_urls_up]
  have e1 := check_stage_erase .income ft t s m
  rcases h1 : check_stage .income ft t s m with er1 | v1
  · rw [h1] at e1
    rcases h1u : check_stage .income ft t (pyUpper s) m with er1u | v1u
    · rw [h1u] at e1
      exact ⟨rfl, e1⟩
    · rw [h1u] at e1
      simp [eraseResult] at e1
  · rw [h1] at e1
    rcases h1u : check_stage .income ft t (pyUpper s) m with er1u | v1u
    · rw [h1u] at e1
      simp [eraseResult] at e1
    · rw [h1u] at e1
      simp only [eraseResult] at e1
      injection e1 with hv1
      subst hv1
      have e2 := check_stage_erase .balance ft t s m
      rcases h2 : check_stage .balance ft t s m with er2 | v2
      · rw [h2] at e2
        rcases h2u : check_stage .balance ft t (pyUpper s) m with er2u | v2u
        · rw [h2u] at e2
          exact ⟨rfl, e2⟩
        · rw [h2u] at e2
          simp [eraseResult] at e2
      · rw [h2] at e2
        rcases h2u : check_stage .balance ft t (pyUpper s) m with er2u | v2u
        · rw [h2u] at e2
          simp [eraseResult] at e2
        · rw [h2u] at e2
          simp only [eraseResult] at e2
          injection e2 with hv2
          subst hv2
          have e3 := check_stage_erase .cashFlow ft t s m
          rcases h3 : check_stage .cashFlow ft t s m with er3 | v3
          · rw [h3] at e3
            rcases h3u : check_stage .cashFlow ft t (pyUpper s) m with er3u | v3u
            · rw [h3u] at e3
              exact ⟨rfl, e3⟩
            · rw [h3u] at e3
              simp [eraseResult] at e3
          · rw [h3] at e3
            rcases h3u : check_stage .cashFlow ft t (pyUpper s) m with er3u | v3u
            · rw [h3u] at e3
              simp [eraseResult] at e3
            · rw [h3u] at e3
              simp only [eraseResult] at e3
              injection e3 with hv3
              subst hv3
              exact ⟨rfl, rfl⟩

/-- Claim C10 (amended): `get_quotes` and `get_financials` issue the very same
request URLs for a symbol and its uppercased form, and produce the same
results apart from the original-casing symbol echoed in the raised exception
messages of both operations (not only of `get_financials`). -/
theorem case_insensitive_up_to_echoed_symbol (version_text financials_text : String)
    (t : Transport) (symbol : String) (m : Int) :
    (version_text ++ "quote/" ++ pyUpper (pyUpper symbol) =
      version_text ++ "quote/" ++ pyUpper symbol) ∧
    (statement_urls financials_text (pyUpper symbol) =
      statement_urls financials_text symbol) ∧
    (eraseResult (get_quotes version_text t (pyUpper symbol)) =
      eraseResult (get_quotes version_text t symbol)) ∧
    ((get_financials_run financials_text t (pyUpper symbol) m).2 =
      (get_financials_run financials_text t symbol m).2) ∧
    (eraseResult (get_financials financials_text t (pyUpper symbol) m) =
      eraseResult (get_financials financials_text t symbol m)) := by
  refine ⟨by rw [pyUpper_idem], statement_urls_up financials_text symbol, ?_,
    (run_up financials_text t symbol m).1, (run_up financials_text t symbol m).2⟩
  unfold get_quotes
  rw [pyUpper_idem]
  rcases hc : call_api t (version_text ++ "quote/" ++ pyUpper symbol) with ⟨resp, err⟩
  cases err with
  | some e => rfl
  | none => rfl

/-- Claim C10 as stated is false: with a failing transport, `get_quotes "ver:"
... "aapl"` and `get_quotes "ver:" ... "AAPL"` produce different results; the
raised fetch-failure exception echoes the symbol in its original casing
(`outcome_eqb` returning `false` certifies the two outcomes differ). -/
theorem symbol_case_counterexample :
    outcome_eqb (get_quotes "ver:" transport_down "aapl")
      (get_quotes "ver:" transport_down (pyUpper "aapl")) = false ∧
    ∀ a b : Except PyErr Json, outcome_eqb a b = false → a ≠ b := by
  constructor
  · rfl
  · intro a b hab heq
    subst heq
    cases a with
    | ok v => exact Bool.noConfusion hab
    | error e =>
        have h2 : (e == e) = false := hab
        simp at h2
